import Mathlib

/-!
Shallow embedding of the purchase-analysis engine of the CARD repository
(`src/services/purchaseAnalyzer.ts`), together with theorems settling the
frozen claims about it.

Modelling conventions:
* JavaScript numbers are modelled as exact rationals (`ℚ`); the score, which
  only ever receives integer increments, is an `Int`.
* Transaction dates are modelled as abstract integer timestamps.  The ambient
  clock (the `new Date()` reads, the `date-fns` month boundaries and the
  `getHours` local-time projection) is packaged into an `AnalyzerEnv`
  parameter, so every theorem is quantified over all possible clocks.
* `string.includes` / `toLowerCase` are modelled on `String`.
-/

namespace Card

/- Batteries marks the rational-number operations `@[irreducible]`; re-enable
unfolding so that concrete witnesses can be checked by `decide`. -/
attribute [local semireducible] Rat.mul Rat.add Rat.sub Rat.inv Rat.ofScientific

/-- The nine transaction categories of `TransactionCategory` in `types`. -/
inductive TransactionCategory
  | food | housing | transportation | entertainment | utilities
  | shopping | healthcare | income | other
  deriving DecidableEq, Repr

/-- `'income' | 'expense'`. -/
inductive TxType
  | income | expense
  deriving DecidableEq, Repr

/-- The `Transaction` record of `types` (fields used plus the passive ones). -/
structure Transaction where
  id : String
  accountId : String
  amount : ℚ
  description : String
  category : TransactionCategory
  date : Int
  type : TxType
  merchant : Option String := none
  location : Option String := none
  isRecurring : Bool := false
  tags : List String := []
  deriving DecidableEq, Repr

/-- `'good' | 'bad' | 'neutral'`. -/
inductive Classification
  | good | bad | neutral
  deriving DecidableEq, Repr

/-- `'essential' | 'investment' | 'entertainment' | 'impulse' | 'waste'`. -/
inductive AnalysisCategory
  | essential | investment | entertainment | impulse | waste
  deriving DecidableEq, Repr

/-- `'positive' | 'negative' | 'neutral'`. -/
inductive Impact
  | positive | negative | neutral
  deriving DecidableEq, Repr

/-- The `PurchaseAnalysis` record. -/
structure PurchaseAnalysis where
  id : String
  transaction : Transaction
  classification : Classification
  score : Int
  reasoning : String
  category : AnalysisCategory
  impact : Impact
  deriving DecidableEq, Repr

/-- The ambient clock: everything the engine reads from `new Date()` /
`date-fns`.  `hourOf d` is `new Date(d).getHours()`; `monthStart i` /
`monthEnd i` are `startOfMonth/endOfMonth (subMonths(now, i))` as timestamps;
the remaining fields are the other `subMonths` cut-offs and the formatted
name of next month. -/
structure AnalyzerEnv where
  hourOf : Int → Int
  threeMonthsAgo : Int
  monthStart : Nat → Int
  monthEnd : Nat → Int
  oneMonthAgo : Int
  twoMonthsAgo : Int
  monthName : String

/-- `haystack.includes(needle)` on lists of characters. -/
def charsContain (needle : List Char) : List Char → Bool
  | [] => needle.isEmpty
  | c :: rest => needle.isPrefixOf (c :: rest) || charsContain needle rest

/-- JavaScript `haystack.includes(needle)`. -/
def jsIncludes (haystack needle : String) : Bool :=
  charsContain needle.toList haystack.toList

/-- JavaScript `s.toLowerCase()` (ASCII, character by character). -/
def lowerString (s : String) : String :=
  ⟨s.data.map Char.toLower⟩

/-- `goodPurchaseCriteria.essential`:
`['food', 'housing', 'utilities', 'healthcare', 'transportation']`. -/
def goodPurchaseCriteriaEssential : List TransactionCategory :=
  [.food, .housing, .utilities, .healthcare, .transportation]

/-- The running state threaded through the expense rules of `analyzePurchase`:
`score`, `reasons`, `analysisCategory`. -/
structure ScoreAcc where
  score : Int
  reasons : List String
  analysisCategory : AnalysisCategory
  deriving DecidableEq, Repr

/-- Gate of the essential-category rule. -/
def essentialGate (t : Transaction) : Bool :=
  goodPurchaseCriteriaEssential.contains t.category

/-- Gate of the investment rule: lowercased description contains any of
`book, course, education, gym, health, medical`. -/
def investGate (t : Transaction) : Bool :=
  let desc := lowerString t.description
  jsIncludes desc "book" || jsIncludes desc "course" || jsIncludes desc "education" ||
    jsIncludes desc "gym" || jsIncludes desc "health" || jsIncludes desc "medical"

/-- Gate of the late-night rule: `hour < 6 || hour > 22`. -/
def lateNightGate (env : AnalyzerEnv) (t : Transaction) : Bool :=
  env.hourOf t.date < 6 || env.hourOf t.date > 22

/-- Gate of the subscription rule: lowercased description contains
`subscription` or `monthly`. -/
def subscriptionGate (t : Transaction) : Bool :=
  let desc := lowerString t.description
  jsIncludes desc "subscription" || jsIncludes desc "monthly"

/-- Gate of the waste rule: lowercased description contains
`cancel`, `refund` or `unused`. -/
def wasteGate (t : Transaction) : Bool :=
  let desc := lowerString t.description
  jsIncludes desc "cancel" || jsIncludes desc "refund" || jsIncludes desc "unused"

/-- Rule block "Essential categories are generally good" with its two
sub-adjustments. -/
def essentialRule (t : Transaction) (acc : ScoreAcc) : ScoreAcc :=
  if essentialGate t then
    let acc : ScoreAcc := { acc with
      score := acc.score + 30
      reasons := acc.reasons ++ ["Essential category"]
      analysisCategory := .essential }
    -- But check if amount is reasonable
    if t.category = .food ∧ t.amount > 100 then
      { acc with score := acc.score - 20, reasons := acc.reasons ++ ["High food expense"] }
    else if t.category = .utilities ∧ t.amount > 300 then
      { acc with score := acc.score - 15, reasons := acc.reasons ++ ["High utility bill"] }
    else acc
  else acc

/-- Rule block "Investment-like purchases". -/
def investRule (t : Transaction) (acc : ScoreAcc) : ScoreAcc :=
  if investGate t then
    { acc with
      score := acc.score + 40
      reasons := acc.reasons ++ ["Investment in personal development"]
      analysisCategory := .investment }
  else acc

/-- Rule block "Impulse purchase indicators". -/
def lateNightRule (env : AnalyzerEnv) (t : Transaction) (acc : ScoreAcc) : ScoreAcc :=
  if lateNightGate env t then
    { acc with
      score := acc.score - 25
      reasons := acc.reasons ++ ["Late night purchase (potential impulse)"]
      analysisCategory := .impulse }
  else acc

/-- Rule block "Shopping analysis". -/
def shoppingRule (t : Transaction) (acc : ScoreAcc) : ScoreAcc :=
  if t.category = .shopping then
    if t.amount > 200 then
      { acc with
        score := acc.score - 30
        reasons := acc.reasons ++ ["Large shopping expense"]
        analysisCategory := .impulse }
    else if t.amount < 50 then
      { acc with
        score := acc.score + 10
        reasons := acc.reasons ++ ["Reasonable shopping amount"] }
    else acc
  else acc

/-- Rule block "Entertainment analysis"; the category overwrite happens
whenever the transaction category is entertainment, whatever the amount. -/
def entertainmentRule (t : Transaction) (acc : ScoreAcc) : ScoreAcc :=
  if t.category = .entertainment then
    let acc : ScoreAcc := if t.amount > 100 then
        { acc with
          score := acc.score - 20
          reasons := acc.reasons ++ ["High entertainment cost"] }
      else if t.amount < 30 then
        { acc with
          score := acc.score + 15
          reasons := acc.reasons ++ ["Moderate entertainment expense"] }
      else acc
    { acc with analysisCategory := .entertainment }
  else acc

/-- Rule block "Frequency analysis" (subscription keywords). -/
def subscriptionRule (t : Transaction) (acc : ScoreAcc) : ScoreAcc :=
  if subscriptionGate t then
    if t.amount > 50 then
      { acc with
        score := acc.score - 15
        reasons := acc.reasons ++ ["Expensive recurring subscription"]
        analysisCategory := .waste }
    else
      { acc with
        score := acc.score + 5
        reasons := acc.reasons ++ ["Reasonable subscription service"] }
  else acc

/-- Rule block "Amount-based scoring" (never touches the category). -/
def amountRule (t : Transaction) (acc : ScoreAcc) : ScoreAcc :=
  if t.amount > 1000 then
    { acc with score := acc.score - 40, reasons := acc.reasons ++ ["Very large expense"] }
  else if t.amount > 500 then
    { acc with score := acc.score - 20, reasons := acc.reasons ++ ["Large expense"] }
  else if t.amount < 20 then
    { acc with score := acc.score + 10, reasons := acc.reasons ++ ["Small, manageable amount"] }
  else acc

/-- Rule block "Waste indicators". -/
def wasteRule (t : Transaction) (acc : ScoreAcc) : ScoreAcc :=
  if wasteGate t then
    { acc with
      score := acc.score - 50
      reasons := acc.reasons ++ ["Potentially wasteful purchase"]
      analysisCategory := .waste }
  else acc

/-- The rule pipeline of `analyzePurchase` for expense transactions: the
rule blocks applied in source order to the initial state
`score = 0, reasons = [], analysisCategory = entertainment`, before the
final clamp. -/
def expenseRules (env : AnalyzerEnv) (t : Transaction) : ScoreAcc :=
  wasteRule t (amountRule t (subscriptionRule t (entertainmentRule t
    (shoppingRule t (lateNightRule env t (investRule t
      (essentialRule t ⟨0, [], .entertainment⟩)))))))

/-- The classification thresholds applied to the final score
(`score >= 20` / `score <= -20`). -/
def classifyScore (s : Int) : Classification :=
  if s ≥ 20 then .good else if s ≤ -20 then .bad else .neutral

/-- The impact thresholds, identical branches to `classifyScore`. -/
def impactOfScore (s : Int) : Impact :=
  if s ≥ 20 then .positive else if s ≤ -20 then .negative else .neutral

/-- `analyzePurchase(transaction)`. -/
def analyzePurchase (env : AnalyzerEnv) (t : Transaction) : PurchaseAnalysis :=
  if t.type = TxType.income then
    { id := t.id
      transaction := t
      classification := .good
      score := 100
      reasoning := "Income is always positive for financial health"
      category := .essential
      impact := .positive }
  else
    let acc := expenseRules env t
    -- Clamp score between -100 and 100
    let score := max (-100) (min 100 acc.score)
    let reasoning := String.intercalate ", " acc.reasons
    { id := t.id
      transaction := t
      classification := classifyScore score
      score := score
      reasoning := if reasoning = "" then "Standard transaction" else reasoning
      category := acc.analysisCategory
      impact := impactOfScore score }

/-- `'increasing' | 'decreasing' | 'stable'`. -/
inductive Trend
  | increasing | decreasing | stable
  deriving DecidableEq, Repr

/-- `'low' | 'medium' | 'high'`. -/
inductive RiskLevel
  | low | medium | high
  deriving DecidableEq, Repr

/-- One entry of `categoryBreakdown` in `MonthlyPrediction`. -/
structure CategoryEstimate where
  category : TransactionCategory
  estimated : Int
  confidence : Nat
  trend : Trend
  deriving DecidableEq, Repr

/-- The `MonthlyPrediction` record. -/
structure MonthlyPrediction where
  month : String
  totalEstimated : Int
  categoryBreakdown : List CategoryEstimate
  riskLevel : RiskLevel
  recommendations : List String
  deriving DecidableEq, Repr

/-- JavaScript `Math.round`: round half toward positive infinity. -/
def jsRound (q : ℚ) : Int :=
  Int.floor (q + 1/2)

/-- The key order of the `categoryTotals` object literal. -/
def allCategories : List TransactionCategory :=
  [.food, .housing, .transportation, .entertainment, .utilities,
   .shopping, .healthcare, .income, .other]

/-- `recentTransactions`: expenses dated within the last 3 months. -/
def recentTransactions (env : AnalyzerEnv) (transactions : List Transaction) :
    List Transaction :=
  transactions.filter fun t =>
    decide (env.threeMonthsAgo ≤ t.date) && decide (t.type = .expense)

/-- The total amount of category `cat` expenses among `rts` falling in the
calendar month `i` months ago (one push onto `categoryTotals[category]`). -/
def monthlyTotal (env : AnalyzerEnv) (rts : List Transaction)
    (cat : TransactionCategory) (i : Nat) : ℚ :=
  (rts.filter fun t =>
      decide (t.category = cat) && decide (env.monthStart i ≤ t.date) &&
        decide (t.date ≤ env.monthEnd i)).foldl
    (fun sum t => sum + t.amount) 0

/-- `categoryTotals[cat]` after the grouping loop: the three monthly totals,
most recent first (`i = 0, 1, 2`). -/
def categoryMonthlyTotals (env : AnalyzerEnv) (transactions : List Transaction)
    (cat : TransactionCategory) : List ℚ :=
  (List.range 3).map (monthlyTotal env (recentTransactions env transactions) cat)

/-- The body of the `categoryBreakdown` map callback: turn one category's
collected monthly totals into an estimate entry. -/
def categoryPrediction (cat : TransactionCategory) (amounts : List ℚ) :
    CategoryEstimate :=
  if amounts.length = 0 then
    { category := cat, estimated := 0, confidence := 0, trend := .stable }
  else
    let average := amounts.foldl (fun sum amt => sum + amt) 0 / (amounts.length : ℚ)
    let trend : Trend :=
      if amounts.length ≥ 2 then
        if amounts.headD 0 > amounts.getLastD 0 * 1.1 then .increasing
        else if amounts.headD 0 < amounts.getLastD 0 * 0.9 then .decreasing
        else .stable
      else .stable
    -- Add trend adjustment
    let estimated := average
    let estimated := if trend = .increasing then estimated * 1.1 else estimated
    let estimated := if trend = .decreasing then estimated * 0.9 else estimated
    -- More data = higher confidence
    let confidence := min 90 (amounts.length * 30)
    { category := cat, estimated := jsRound estimated, confidence := confidence,
      trend := trend }

/-- `categoryBreakdown`: per-category predictions with the zero estimates
filtered out. -/
def predictionBreakdown (env : AnalyzerEnv) (transactions : List Transaction) :
    List CategoryEstimate :=
  (allCategories.map fun cat =>
      categoryPrediction cat (categoryMonthlyTotals env transactions cat)).filter
    fun item => decide (item.estimated > 0)

/-- Name of a transaction category as the JS string. -/
def TransactionCategory.name : TransactionCategory → String
  | .food => "food"
  | .housing => "housing"
  | .transportation => "transportation"
  | .entertainment => "entertainment"
  | .utilities => "utilities"
  | .shopping => "shopping"
  | .healthcare => "healthcare"
  | .income => "income"
  | .other => "other"

/-- `generateMonthlyPrediction(transactions)`. -/
def generateMonthlyPrediction (env : AnalyzerEnv)
    (transactions : List Transaction) : MonthlyPrediction :=
  let rts := recentTransactions env transactions
  let categoryBreakdown := predictionBreakdown env transactions
  let totalEstimated := categoryBreakdown.foldl (fun sum item => sum + item.estimated) (0 : ℤ)
  -- Determine risk level
  let previousMonthTotal :=
    (rts.filter fun t =>
        decide (env.monthStart 1 ≤ t.date) && decide (t.date ≤ env.monthEnd 1)).foldl
      (fun sum t => sum + t.amount) 0
  let riskLevel : RiskLevel :=
    if (totalEstimated : ℚ) > previousMonthTotal * 1.2 then .high
    else if (totalEstimated : ℚ) > previousMonthTotal * 1.1 then .medium
    else .low
  -- Generate recommendations
  let recommendations : List String :=
    (if riskLevel = .high then ["Consider reducing discretionary spending this month"] else [])
  let highestCategory : Option CategoryEstimate :=
    match categoryBreakdown with
    | [] => none
    | first :: _ =>
      some (categoryBreakdown.foldl
        (fun mx item => if item.estimated > mx.estimated then item else mx) first)
  let recommendations := recommendations ++
    (match highestCategory with
     | some hc =>
       if (hc.estimated : ℚ) > (totalEstimated : ℚ) * 0.3 then
         ["Monitor " ++ hc.category.name ++
           " spending - it\x27s your largest predicted expense"]
       else []
     | none => [])
  let recommendations := recommendations ++
    (categoryBreakdown.filter fun item =>
        decide (item.trend = .increasing) && decide (item.estimated > 200)).map
      (fun item => item.category.name ++ " spending is trending upward")
  let recommendations :=
    if recommendations.length = 0 then
      ["Your spending patterns look stable for next month"]
    else recommendations
  { month := env.monthName
    totalEstimated := totalEstimated
    categoryBreakdown := categoryBreakdown
    riskLevel := riskLevel
    recommendations := recommendations }

/-- `'improving' | 'declining' | 'stable'`. -/
inductive SpendingPattern
  | improving | declining | stable
  deriving DecidableEq, Repr

/-- The `trends` sub-record of `PurchaseInsights`. -/
structure TrendSummary where
  improvementScore : ℚ
  spendingPattern : SpendingPattern
  riskAreas : List String
  strengths : List String
  deriving DecidableEq, Repr

/-- The `PurchaseInsights` record. -/
structure PurchaseInsights where
  goodPurchases : List PurchaseAnalysis
  badPurchases : List PurchaseAnalysis
  neutralPurchases : List PurchaseAnalysis
  totalGoodValue : ℚ
  totalBadValue : ℚ
  goodBadRatio : ℚ
  monthlyPrediction : MonthlyPrediction
  trends : TrendSummary
  deriving DecidableEq, Repr

/-- Name of an analysis category as the JS string. -/
def AnalysisCategory.name : AnalysisCategory → String
  | .essential => "essential"
  | .investment => "investment"
  | .entertainment => "entertainment"
  | .impulse => "impulse"
  | .waste => "waste"

/-- Keys of a JS object built by insertion: the distinct elements of a list
in order of first occurrence (`Object.keys` iteration order). -/
def firstOccurrences {α : Type} [DecidableEq α] : List α → List α
  | [] => []
  | x :: xs => x :: firstOccurrences (xs.filter fun y => decide (y ≠ x))
  termination_by l => l.length
  decreasing_by
    simp only [List.length_cons]
    exact Nat.lt_succ_of_le (List.length_filter_le _ _)

/-- `analyzeAllPurchases(transactions)`. -/
def analyzeAllPurchases (env : AnalyzerEnv) (transactions : List Transaction) :
    PurchaseInsights :=
  let analyses := transactions.map (analyzePurchase env)
  let goodPurchases := analyses.filter fun a => decide (a.classification = .good)
  let badPurchases := analyses.filter fun a => decide (a.classification = .bad)
  let neutralPurchases := analyses.filter fun a => decide (a.classification = .neutral)
  let totalGoodValue :=
    (goodPurchases.filter fun p => decide (p.transaction.type = .expense)).foldl
      (fun sum p => sum + p.transaction.amount) 0
  let totalBadValue :=
    (badPurchases.filter fun p => decide (p.transaction.type = .expense)).foldl
      (fun sum p => sum + p.transaction.amount) 0
  let goodBadRatio : ℚ :=
    if totalBadValue > 0 then totalGoodValue / totalBadValue
    else if totalGoodValue > 0 then 10 else 1
  let monthlyPrediction := generateMonthlyPrediction env transactions
  -- Calculate improvement trends
  let recentAnalyses := analyses.filter fun a =>
    decide (env.oneMonthAgo ≤ a.transaction.date)
  let olderAnalyses := analyses.filter fun a =>
    decide (env.twoMonthsAgo ≤ a.transaction.date) &&
      decide (a.transaction.date < env.oneMonthAgo)
  let recentAvgScore : ℚ :=
    if recentAnalyses.length > 0 then
      (recentAnalyses.foldl (fun sum a => sum + a.score) (0 : ℤ) : ℚ) /
        (recentAnalyses.length : ℚ)
    else 0
  let olderAvgScore : ℚ :=
    if olderAnalyses.length > 0 then
      (olderAnalyses.foldl (fun sum a => sum + a.score) (0 : ℤ) : ℚ) /
        (olderAnalyses.length : ℚ)
    else 0
  let improvementScore := recentAvgScore - olderAvgScore
  let spendingPattern : SpendingPattern :=
    if improvementScore > 10 then .improving
    else if improvementScore < -10 then .declining
    else .stable
  -- Identify risk areas and strengths
  let badCategoryKeys := firstOccurrences (badPurchases.map fun p => p.category)
  let riskAreas :=
    (badCategoryKeys.filter fun c =>
        decide ((badPurchases.map fun p => p.category).count c ≥ 3)).map
      fun c => "Frequent " ++ c.name ++ " purchases"
  let goodCategoryKeys := firstOccurrences (goodPurchases.map fun p => p.category)
  let strengths :=
    (goodCategoryKeys.filter fun c =>
        decide ((goodPurchases.map fun p => p.category).count c ≥ 5)).map
      fun c => "Strong " ++ c.name ++ " spending habits"
  let strengths := strengths ++
    (if goodBadRatio > 2 then ["Overall positive spending patterns"] else [])
  { goodPurchases := goodPurchases
    badPurchases := badPurchases
    neutralPurchases := neutralPurchases
    totalGoodValue := totalGoodValue
    totalBadValue := totalBadValue
    goodBadRatio := goodBadRatio
    monthlyPrediction := monthlyPrediction
    trends :=
      { improvementScore := improvementScore
        spendingPattern := spendingPattern
        riskAreas := riskAreas
        strengths := strengths } }

/-! ### Concrete fixtures used by witnesses and counterexamples -/

/-- A concrete clock: noon local time, month windows `[200,299]` (current),
`[100,199]` (last month), `[0,99]` (two months ago). -/
def env0 : AnalyzerEnv :=
  { hourOf := fun _ => 12
    threeMonthsAgo := 0
    monthStart := fun i => 200 - 100 * (i : Int)
    monthEnd := fun i => 299 - 100 * (i : Int)
    oneMonthAgo := 200
    twoMonthsAgo := 100
    monthName := "January 2026" }

/-- The same clock but at 2 a.m. local time. -/
def env2am : AnalyzerEnv := { env0 with hourOf := fun _ => 2 }

/-- A paycheck: `{amount: 4500, category: income, type: income}`. -/
def txIncome : Transaction :=
  { id := "t1", accountId := "a", amount := 4500, description := "Monthly salary",
    category := .income, date := 250, type := .income }

/-- A plain food expense in the current month. -/
def txFood50 : Transaction :=
  { id := "t2", accountId := "a", amount := 50, description := "Grocery run",
    category := .food, date := 250, type := .expense }

/-- A very large uncategorised expense (classified bad via the amount tier
and the late-night rule is off). -/
def txBig : Transaction :=
  { id := "t3", accountId := "a", amount := 2000, description := "Stuff",
    category := .other, date := 250, type := .expense }

/-- An entertainment expense whose description also matches the investment
keyword rule (`book`). -/
def txEntBook : Transaction :=
  { id := "t4", accountId := "a", amount := 25, description := "Movie book night",
    category := .entertainment, date := 250, type := .expense }

/-- A small expense matching no category-assigning rule. -/
def txPlain : Transaction :=
  { id := "t5", accountId := "a", amount := 10, description := "Stamps",
    category := .other, date := 250, type := .expense }

/-! ### Claims -/

/-- Helper: the classification and impact of any analysis are the fixed
threshold functions of its final score. -/
theorem analyzePurchase_classification_impact (env : AnalyzerEnv) (t : Transaction) :
    (analyzePurchase env t).classification = classifyScore (analyzePurchase env t).score ∧
      (analyzePurchase env t).impact = impactOfScore (analyzePurchase env t).score := by
  by_cases h : t.type = TxType.income
  · simp only [analyzePurchase, if_pos h]
    exact ⟨by decide, by decide⟩
  · simp only [analyzePurchase, if_neg h]
    exact ⟨trivial, trivial⟩

/-- **C1.** For every transaction with `type = income`, `analyzePurchase`
returns the fixed short-circuit record: classification good, score 100,
reasoning "Income is always positive for financial health", category
essential, impact positive — and, the result being exactly that record, no
other scoring rule contributes. -/
theorem analyzePurchase_income_shortCircuit (env : AnalyzerEnv) (t : Transaction)
    (h : t.type = TxType.income) :
    analyzePurchase env t =
      { id := t.id
        transaction := t
        classification := .good
        score := 100
        reasoning := "Income is always positive for financial health"
        category := .essential
        impact := .positive } := by
  simp only [analyzePurchase, if_pos h]

/-- Witness for C1: the `amount = 4500` paycheck fixture. -/
theorem analyzePurchase_income_shortCircuit_witness :
    txIncome.type = TxType.income ∧
      analyzePurchase env0 txIncome =
        { id := txIncome.id
          transaction := txIncome
          classification := .good
          score := 100
          reasoning := "Income is always positive for financial health"
          category := .essential
          impact := .positive } :=
  ⟨rfl, analyzePurchase_income_shortCircuit env0 txIncome rfl⟩

/-- **C2.** Every analysis score lies in the closed interval `[-100, 100]`:
the income branch returns `100` and the expense branch clamps. -/
theorem analyzePurchase_score_in_range (env : AnalyzerEnv) (t : Transaction) :
    -100 ≤ (analyzePurchase env t).score ∧ (analyzePurchase env t).score ≤ 100 := by
  by_cases h : t.type = TxType.income
  · simp only [analyzePurchase, if_pos h]
    exact ⟨by norm_num, by norm_num⟩
  · simp only [analyzePurchase, if_neg h]
    exact ⟨le_max_left _ _, max_le (by norm_num) (min_le_left _ _)⟩

/-- **C3.** Classification and impact are determined solely by the final
score via the fixed thresholds: `score ≥ 20` gives good/positive,
`score ≤ -20` gives bad/negative, anything else neutral/neutral. -/
theorem analyzePurchase_thresholds (env : AnalyzerEnv) (t : Transaction) :
    ((analyzePurchase env t).score ≥ 20 →
        (analyzePurchase env t).classification = .good ∧
          (analyzePurchase env t).impact = .positive) ∧
      ((analyzePurchase env t).score ≤ -20 →
        (analyzePurchase env t).classification = .bad ∧
          (analyzePurchase env t).impact = .negative) ∧
      (-20 < (analyzePurchase env t).score → (analyzePurchase env t).score < 20 →
        (analyzePurchase env t).classification = .neutral ∧
          (analyzePurchase env t).impact = .neutral) := by
  obtain ⟨hc, hi⟩ := analyzePurchase_classification_impact env t
  rw [hc, hi]
  set s := (analyzePurchase env t).score with hs
  unfold classifyScore impactOfScore
  refine ⟨fun h20 => ?_, fun hm20 => ?_, fun hl hr => ?_⟩
  · rw [if_pos h20, if_pos h20]
    exact ⟨rfl, rfl⟩
  · have : ¬ s ≥ 20 := by omega
    rw [if_neg this, if_pos hm20, if_neg this, if_pos hm20]
    exact ⟨rfl, rfl⟩
  · have h1 : ¬ s ≥ 20 := by omega
    have h2 : ¬ s ≤ -20 := by omega
    rw [if_neg h1, if_neg h2, if_neg h1, if_neg h2]
    exact ⟨rfl, rfl⟩

/-- Witness for C3: a good score (food fixture, 30), a bad score (large
expense fixture, -40), and a neutral score (income-free plain fixture, 10)
each land in the claimed classification. -/
theorem analyzePurchase_thresholds_witness :
    ((analyzePurchase env0 txFood50).score ≥ 20 ∧
        (analyzePurchase env0 txFood50).classification = .good) ∧
      ((analyzePurchase env0 txBig).score ≤ -20 ∧
        (analyzePurchase env0 txBig).classification = .bad) ∧
      (-20 < (analyzePurchase env0 txPlain).score ∧
        (analyzePurchase env0 txPlain).score < 20 ∧
        (analyzePurchase env0 txPlain).classification = .neutral) :=
  ⟨⟨by decide, ((analyzePurchase_thresholds env0 txFood50).1 (by decide)).1⟩,
    ⟨by decide, ((analyzePurchase_thresholds env0 txBig).2.1 (by decide)).1⟩,
    ⟨by decide, by decide,
      ((analyzePurchase_thresholds env0 txPlain).2.2 (by decide) (by decide)).1⟩⟩

/-- **C4.** The good/bad ratio is the quotient when there is bad spending,
`10` when there is good spending but no bad spending, and `1` when there is
neither; the division branch is only taken under `totalBadValue > 0`. -/
theorem analyzeAllPurchases_ratio (env : AnalyzerEnv) (txs : List Transaction) :
    ((analyzeAllPurchases env txs).totalBadValue > 0 →
        (analyzeAllPurchases env txs).goodBadRatio =
          (analyzeAllPurchases env txs).totalGoodValue /
            (analyzeAllPurchases env txs).totalBadValue) ∧
      ((analyzeAllPurchases env txs).totalBadValue = 0 →
        (analyzeAllPurchases env txs).totalGoodValue > 0 →
        (analyzeAllPurchases env txs).goodBadRatio = 10) ∧
      ((analyzeAllPurchases env txs).totalBadValue = 0 →
        (analyzeAllPurchases env txs).totalGoodValue = 0 →
        (analyzeAllPurchases env txs).goodBadRatio = 1) := by
  simp only [analyzeAllPurchases]
  refine ⟨fun hb => ?_, fun hb hg => ?_, fun hb hg => ?_⟩
  · rw [if_pos hb]
  · rw [if_neg (by rw [hb]; exact lt_irrefl 0), if_pos hg]
  · rw [if_neg (by rw [hb]; exact lt_irrefl 0), if_neg (by rw [hg]; exact lt_irrefl 0)]

/-- Witness for C4: each of the three ratio branches realised on a concrete
list — one bad purchase, one good purchase, and the empty list. -/
theorem analyzeAllPurchases_ratio_witness :
    ((analyzeAllPurchases env0 [txBig]).totalBadValue > 0 ∧
        (analyzeAllPurchases env0 [txBig]).goodBadRatio =
          (analyzeAllPurchases env0 [txBig]).totalGoodValue /
            (analyzeAllPurchases env0 [txBig]).totalBadValue) ∧
      ((analyzeAllPurchases env0 [txFood50]).totalBadValue = 0 ∧
        (analyzeAllPurchases env0 [txFood50]).totalGoodValue > 0 ∧
        (analyzeAllPurchases env0 [txFood50]).goodBadRatio = 10) ∧
      ((analyzeAllPurchases env0 []).totalBadValue = 0 ∧
        (analyzeAllPurchases env0 []).totalGoodValue = 0 ∧
        (analyzeAllPurchases env0 []).goodBadRatio = 1) :=
  ⟨⟨by decide, (analyzeAllPurchases_ratio env0 [txBig]).1 (by decide)⟩,
    ⟨by decide, by decide,
      (analyzeAllPurchases_ratio env0 [txFood50]).2.1 (by decide) (by decide)⟩,
    ⟨by decide, by decide,
      (analyzeAllPurchases_ratio env0 []).2.2 (by decide) (by decide)⟩⟩

/-- Helper: with no transactions every category collects `[0, 0, 0]`. -/
theorem categoryMonthlyTotals_nil (env : AnalyzerEnv) (cat : TransactionCategory) :
    categoryMonthlyTotals env [] cat = [0, 0, 0] := rfl

/-- Helper: a category with three zero monthly totals predicts a zero
estimate with full confidence and a stable trend. -/
theorem categoryPrediction_zeros (cat : TransactionCategory) :
    categoryPrediction cat [0, 0, 0] = ⟨cat, 0, 90, .stable⟩ := by
  simp only [categoryPrediction, jsRound]
  norm_num

/-- Helper: the empty transaction list yields an empty breakdown. -/
theorem predictionBreakdown_nil (env : AnalyzerEnv) :
    predictionBreakdown env [] = [] := by
  simp [predictionBreakdown, categoryMonthlyTotals_nil, categoryPrediction_zeros,
    allCategories]

/-- **C7.** On the empty transaction list `analyzeAllPurchases` returns empty
partitions, zero totals, ratio `1`, a prediction with `totalEstimated = 0` and
empty breakdown, and exactly the single fallback recommendation. -/
theorem analyzeAllPurchases_empty (env : AnalyzerEnv) :
    (analyzeAllPurchases env []).goodPurchases = [] ∧
      (analyzeAllPurchases env []).badPurchases = [] ∧
      (analyzeAllPurchases env []).neutralPurchases = [] ∧
      (analyzeAllPurchases env []).totalGoodValue = 0 ∧
      (analyzeAllPurchases env []).totalBadValue = 0 ∧
      (analyzeAllPurchases env []).goodBadRatio = 1 ∧
      (analyzeAllPurchases env []).monthlyPrediction.totalEstimated = 0 ∧
      (analyzeAllPurchases env []).monthlyPrediction.categoryBreakdown = [] ∧
      (analyzeAllPurchases env []).monthlyPrediction.recommendations =
        ["Your spending patterns look stable for next month"] := by
  have hb := predictionBreakdown_nil env
  simp [analyzeAllPurchases, generateMonthlyPrediction, hb, recentTransactions]

/-! ### Category-overwrite semantics (C9, C10) -/

theorem essentialRule_cat (t : Transaction) (acc : ScoreAcc) :
    (essentialRule t acc).analysisCategory =
      if essentialGate t then .essential else acc.analysisCategory := by
  unfold essentialRule
  split_ifs <;> rfl

theorem investRule_cat (t : Transaction) (acc : ScoreAcc) :
    (investRule t acc).analysisCategory =
      if investGate t then .investment else acc.analysisCategory := by
  unfold investRule
  split_ifs <;> rfl

theorem lateNightRule_cat (env : AnalyzerEnv) (t : Transaction) (acc : ScoreAcc) :
    (lateNightRule env t acc).analysisCategory =
      if lateNightGate env t then .impulse else acc.analysisCategory := by
  unfold lateNightRule
  split_ifs <;> rfl

theorem shoppingRule_cat (t : Transaction) (acc : ScoreAcc) :
    (shoppingRule t acc).analysisCategory =
      if t.category = .shopping ∧ t.amount > 200 then .impulse
      else acc.analysisCategory := by
  unfold shoppingRule
  split_ifs with h1 h2 h3 <;> first | rfl | tauto

theorem entertainmentRule_cat (t : Transaction) (acc : ScoreAcc) :
    (entertainmentRule t acc).analysisCategory =
      if t.category = .entertainment then .entertainment
      else acc.analysisCategory := by
  unfold entertainmentRule
  split_ifs <;> rfl

theorem subscriptionRule_cat (t : Transaction) (acc : ScoreAcc) :
    (subscriptionRule t acc).analysisCategory =
      if subscriptionGate t ∧ t.amount > 50 then .waste
      else acc.analysisCategory := by
  unfold subscriptionRule
  split_ifs <;> first | rfl | tauto

theorem amountRule_cat (t : Transaction) (acc : ScoreAcc) :
    (amountRule t acc).analysisCategory = acc.analysisCategory := by
  unfold amountRule
  split_ifs <;> rfl

theorem wasteRule_cat (t : Transaction) (acc : ScoreAcc) :
    (wasteRule t acc).analysisCategory =
      if wasteGate t then .waste else acc.analysisCategory := by
  unfold wasteRule
  split_ifs <;> rfl

/-- Shared helper: the analysis category produced by the expense rule
pipeline, written as the chain of overwrites in reverse source order. -/
theorem expenseRules_analysisCategory (env : AnalyzerEnv) (t : Transaction) :
    (expenseRules env t).analysisCategory =
      if wasteGate t then .waste
      else if subscriptionGate t ∧ t.amount > 50 then .waste
      else if t.category = .entertainment then .entertainment
      else if t.category = .shopping ∧ t.amount > 200 then .impulse
      else if lateNightGate env t then .impulse
      else if investGate t then .investment
      else if essentialGate t then .essential
      else .entertainment := by
  unfold expenseRules
  rw [wasteRule_cat, amountRule_cat, subscriptionRule_cat, entertainmentRule_cat,
    shoppingRule_cat, lateNightRule_cat, investRule_cat, essentialRule_cat]

/-- The category of the last matching category-assigning rule in the fixed
source order (essential, investment keyword, late night, shopping over 200,
entertainment, subscription over 50, cancel/refund/unused), defaulting to
`entertainment` — the claim's description of the overwrite semantics,
expressed by checking the rules in reverse order. -/
def lastMatchingRuleCategory (env : AnalyzerEnv) (t : Transaction) :
    AnalysisCategory :=
  if wasteGate t then .waste
  else if subscriptionGate t ∧ t.amount > 50 then .waste
  else if t.category = .entertainment then .entertainment
  else if t.category = .shopping ∧ t.amount > 200 then .impulse
  else if lateNightGate env t then .impulse
  else if investGate t then .investment
  else if essentialGate t then .essential
  else .entertainment

/-- **C9.** For expense transactions the final analysis category is the one
assigned by the last matching category-assigning rule in source order (each
matching rule overwrites the field unconditionally), not the rule with the
largest score impact. -/
theorem analyzePurchase_category_lastWins (env : AnalyzerEnv) (t : Transaction)
    (h : t.type = TxType.expense) :
    (analyzePurchase env t).category = lastMatchingRuleCategory env t := by
  have hni : ¬ t.type = TxType.income := by rw [h]; intro hc; exact absurd hc (by decide)
  simp only [analyzePurchase, if_neg hni]
  exact (expenseRules_analysisCategory env t).trans (by rw [lastMatchingRuleCategory])

/-- Witness for C9: an entertainment transaction whose description matches
the earlier investment rule (`book`) still ends with category
`entertainment`, because the entertainment rule runs later. -/
theorem analyzePurchase_category_lastWins_witness :
    txEntBook.type = TxType.expense ∧
      investGate txEntBook = true ∧
      (analyzePurchase env0 txEntBook).category =
        lastMatchingRuleCategory env0 txEntBook ∧
      (analyzePurchase env0 txEntBook).category = .entertainment :=
  ⟨rfl, by decide, analyzePurchase_category_lastWins env0 txEntBook rfl, by decide⟩

/-- **C10.** An expense transaction matching no category-assigning rule keeps
the uninitialised default category `entertainment`: not an essential
category, no investment / subscription / waste keyword in the description,
local hour within `[6, 22]`, not a shopping purchase over 200, and category
neither shopping nor entertainment. -/
theorem analyzePurchase_default_category (env : AnalyzerEnv) (t : Transaction)
    (hexp : t.type = TxType.expense)
    (hess : essentialGate t = false)
    (hinv : investGate t = false)
    (hsub : subscriptionGate t = false)
    (hwaste : wasteGate t = false)
    (hhour : 6 ≤ env.hourOf t.date ∧ env.hourOf t.date ≤ 22)
    (hshopBig : ¬(t.category = .shopping ∧ t.amount > 200))
    (hshop : t.category ≠ .shopping)
    (hent : t.category ≠ .entertainment) :
    (analyzePurchase env t).category = .entertainment := by
  have hni : ¬ t.type = TxType.income := by rw [hexp]; intro hc; exact absurd hc (by decide)
  have hlate : lateNightGate env t = false := by
    unfold lateNightGate
    simp only [Bool.or_eq_false_iff, decide_eq_false_iff_not]
    omega
  simp only [analyzePurchase, if_neg hni]
  rw [expenseRules_analysisCategory]
  simp [hess, hinv, hsub, hwaste, hlate, hshopBig, hent]

/-- Witness for C10: a daytime stamp purchase in category `other` matches no
rule that assigns a category, and comes out labelled `entertainment`. -/
theorem analyzePurchase_default_category_witness :
    (txPlain.type = TxType.expense ∧
        essentialGate txPlain = false ∧
        investGate txPlain = false ∧
        subscriptionGate txPlain = false ∧
        wasteGate txPlain = false ∧
        (6 ≤ env0.hourOf txPlain.date ∧ env0.hourOf txPlain.date ≤ 22) ∧
        ¬(txPlain.category = .shopping ∧ txPlain.amount > 200) ∧
        txPlain.category ≠ .shopping ∧
        txPlain.category ≠ .entertainment) ∧
      (analyzePurchase env0 txPlain).category = .entertainment :=
  ⟨⟨rfl, by decide, by decide, by decide, by decide, by decide, by decide,
      by decide, by decide⟩,
    analyzePurchase_default_category env0 txPlain rfl (by decide) (by decide)
      (by decide) (by decide) (by decide) (by decide) (by decide) (by decide)⟩

/-! ### Predictor breakdown properties (C5, C6, C8) -/

/-- Helper: the breakdown of the emitted prediction is `predictionBreakdown`. -/
theorem generateMonthlyPrediction_breakdown (env : AnalyzerEnv)
    (txs : List Transaction) :
    (generateMonthlyPrediction env txs).categoryBreakdown =
      predictionBreakdown env txs := rfl

/-- Helper: exactly three monthly totals are collected for every category
(the grouping loop pushes one total per month for each of the three months,
whether or not the category had any transactions). -/
theorem categoryMonthlyTotals_length (env : AnalyzerEnv) (txs : List Transaction)
    (cat : TransactionCategory) :
    (categoryMonthlyTotals env txs cat).length = 3 := by
  simp [categoryMonthlyTotals]

/-- The number of months, among the three inspected, in which a category has
a nonzero collected total — the natural reading of the claim's "months of
data available". -/
def monthsWithData (env : AnalyzerEnv) (txs : List Transaction)
    (cat : TransactionCategory) : Nat :=
  ((categoryMonthlyTotals env txs cat).filter fun q => decide (q ≠ 0)).length

/-- Counterexample to C5 as stated: with data in exactly one month, the food
category is emitted with confidence `90`, not `30` — every category always
collects three monthly totals (zeros included), so `min(90, count × 30)` is
evaluated at count `3`, never `1` or `2`. -/
theorem breakdown_confidence_counterexample :
    monthsWithData env0 [txFood50] .food = 1 ∧
      (generateMonthlyPrediction env0 [txFood50]).categoryBreakdown =
        [⟨.food, 18, 90, .increasing⟩] ∧
      (90 : Nat) ≠ 30 :=
  ⟨by decide, by decide, by decide⟩

/-- **C5 (amended).** Every entry of the emitted category breakdown has
confidence exactly `90 = min(90, 3 × 30)`: the collected-totals list always
has three entries, so the confidences `30` and `60` never occur. -/
theorem breakdown_confidence (env : AnalyzerEnv) (txs : List Transaction)
    (e : CategoryEstimate)
    (he : e ∈ (generateMonthlyPrediction env txs).categoryBreakdown) :
    e.confidence = 90 := by
  rw [generateMonthlyPrediction_breakdown] at he
  unfold predictionBreakdown at he
  obtain ⟨cat, hcat, rfl⟩ := List.mem_map.mp (List.mem_filter.mp he).1
  have hlen := categoryMonthlyTotals_length env txs cat
  simp [categoryPrediction, hlen]

/-- Witness for C5 (amended): the single emitted entry of the food-only
fixture has confidence 90. -/
theorem breakdown_confidence_witness :
    (⟨.food, 18, 90, .increasing⟩ : CategoryEstimate) ∈
        (generateMonthlyPrediction env0 [txFood50]).categoryBreakdown ∧
      (⟨.food, 18, 90, .increasing⟩ : CategoryEstimate).confidence = 90 :=
  ⟨by decide, breakdown_confidence env0 [txFood50] _ (by decide)⟩

/-- **C6.** No emitted breakdown entry has a zero estimate: the filter keeps
only entries with a positive rounded estimate. -/
theorem breakdown_no_zero_estimate (env : AnalyzerEnv) (txs : List Transaction)
    (e : CategoryEstimate)
    (he : e ∈ (generateMonthlyPrediction env txs).categoryBreakdown) :
    e.estimated ≠ 0 := by
  rw [generateMonthlyPrediction_breakdown] at he
  unfold predictionBreakdown at he
  exact ne_of_gt (of_decide_eq_true (List.mem_filter.mp he).2)

/-- Witness for C6: the emitted food entry of the food-only fixture has a
nonzero estimate. -/
theorem breakdown_no_zero_estimate_witness :
    (⟨.food, 18, 90, .increasing⟩ : CategoryEstimate) ∈
        (generateMonthlyPrediction env0 [txFood50]).categoryBreakdown ∧
      (⟨.food, 18, 90, .increasing⟩ : CategoryEstimate).estimated ≠ 0 :=
  ⟨by decide, breakdown_no_zero_estimate env0 [txFood50] _ (by decide)⟩

/-- Helper for C8: the trend/estimate characterisation over an arbitrary
three-element totals list. -/
theorem categoryPrediction_spec3 (cat : TransactionCategory) (a b c : ℚ) :
    (categoryPrediction cat [a, b, c]).trend =
        (if a > c * 1.1 then Trend.increasing
          else if a < c * 0.9 then Trend.decreasing
          else Trend.stable) ∧
      (categoryPrediction cat [a, b, c]).estimated =
        jsRound ([a, b, c].sum / (([a, b, c].length : ℕ) : ℚ) *
          (if (categoryPrediction cat [a, b, c]).trend = Trend.increasing then 1.1
            else if (categoryPrediction cat [a, b, c]).trend = Trend.decreasing then 0.9
            else 1)) := by
  by_cases h1 : a > c * 1.1
  · refine ⟨by simp [categoryPrediction, h1], ?_⟩
    simp [categoryPrediction, h1]
    congr 1
    ring
  · by_cases h2 : a < c * 0.9
    · refine ⟨by simp [categoryPrediction, h1, h2], ?_⟩
      simp [categoryPrediction, h1, h2]
      congr 1
      ring
    · refine ⟨by simp [categoryPrediction, h1, h2], ?_⟩
      simp [categoryPrediction, h1, h2]
      congr 1
      ring

/-- **C8.** For every category with at least two collected monthly totals,
the trend compares the most recent total (index 0) against the oldest
collected total (last index) with the ×1.1 / ×0.9 bands, and the emitted
estimate is the arithmetic mean of the collected totals scaled by 1.1, 0.9
or 1 according to the trend, rounded. -/
theorem breakdown_trend_estimate (env : AnalyzerEnv) (txs : List Transaction)
    (cat : TransactionCategory)
    (h : 2 ≤ (categoryMonthlyTotals env txs cat).length) :
    (categoryPrediction cat (categoryMonthlyTotals env txs cat)).trend =
        (if (categoryMonthlyTotals env txs cat).headD 0 >
              (categoryMonthlyTotals env txs cat).getLastD 0 * 1.1 then Trend.increasing
          else if (categoryMonthlyTotals env txs cat).headD 0 <
              (categoryMonthlyTotals env txs cat).getLastD 0 * 0.9 then Trend.decreasing
          else Trend.stable) ∧
      (categoryPrediction cat (categoryMonthlyTotals env txs cat)).estimated =
        jsRound ((categoryMonthlyTotals env txs cat).sum /
            (((categoryMonthlyTotals env txs cat).length : ℕ) : ℚ) *
          (if (categoryPrediction cat (categoryMonthlyTotals env txs cat)).trend =
              Trend.increasing then 1.1
            else if (categoryPrediction cat (categoryMonthlyTotals env txs cat)).trend =
              Trend.decreasing then 0.9
            else 1)) := by
  have h3 : categoryMonthlyTotals env txs cat =
      [monthlyTotal env (recentTransactions env txs) cat 0,
        monthlyTotal env (recentTransactions env txs) cat 1,
        monthlyTotal env (recentTransactions env txs) cat 2] := rfl
  rw [h3]
  simpa using categoryPrediction_spec3 cat
    (monthlyTotal env (recentTransactions env txs) cat 0)
    (monthlyTotal env (recentTransactions env txs) cat 1)
    (monthlyTotal env (recentTransactions env txs) cat 2)

/-- Witness for C8: the food-only fixture (totals `[50, 0, 0]`) has three
collected totals, an increasing trend, and estimate `round(50/3 × 1.1) = 18`. -/
theorem breakdown_trend_estimate_witness :
    (2 ≤ (categoryMonthlyTotals env0 [txFood50] .food).length) ∧
      (categoryPrediction .food (categoryMonthlyTotals env0 [txFood50] .food)).trend =
        (if (categoryMonthlyTotals env0 [txFood50] .food).headD 0 >
              (categoryMonthlyTotals env0 [txFood50] .food).getLastD 0 * 1.1 then
            Trend.increasing
          else if (categoryMonthlyTotals env0 [txFood50] .food).headD 0 <
              (categoryMonthlyTotals env0 [txFood50] .food).getLastD 0 * 0.9 then
            Trend.decreasing
          else Trend.stable) ∧
      (categoryPrediction .food (categoryMonthlyTotals env0 [txFood50] .food)).trend =
        Trend.increasing ∧
      (categoryPrediction .food (categoryMonthlyTotals env0 [txFood50] .food)).estimated =
        18 :=
  ⟨by decide,
    (breakdown_trend_estimate env0 [txFood50] .food (by decide)).1,
    by decide, by decide⟩

end Card
